import Mathlib

/-!
Verification development for the rp2 tax engine (files `tax_engine.py` and
`configuration.py`).  The Python code is shallowly embedded: `RP2Decimal`
(an arbitrary-precision decimal) is modelled by `Rat`, timezone-aware
timestamps by a pair of an integer instant (total chronological order) and a
calendar year, fallible code by `Except` / `Option`, and the per-class
runtime state by explicit lists and accumulators.  Definitions follow the
source line by line; classes of the repository that are not part of the two
source files (`GainLoss`, `TransactionSet`, the transaction classes'
derived attributes) are modelled from the specification and say so in their
doc comments.
-/

/-- Error values the embedded code can signal.  `rp2ValueError` and
`rp2TypeError` are the user-facing RP2 error classes (`rp2_error.py`);
`notImplementedError` and `exception` are the built-in Python classes raised
by `configuration.py` and `_verify_computation` respectively;
`decimalDivisionByZero` models the error a Python `Decimal` division by zero
raises. -/
inductive PyErr where
  | rp2ValueError (msg : String)
  | rp2TypeError (msg : String)
  | notImplementedError (msg : String)
  | exception (msg : String)
  | decimalDivisionByZero
deriving DecidableEq, Repr

/-- The user-facing RP2 error classes, as distinguished by the spec from the
internal-consistency `Exception` of `_verify_computation`. -/
def PyErr.is_user_facing_rp2_error : PyErr → Bool
  | .rp2ValueError _ => true
  | .rp2TypeError _ => true
  | _ => false

/-- Transaction kinds (`entry_types.py`, not under the sources; the kinds are
taken from the spec: acquisition, disposal, transfers, earned income).  Only
`earn` is inspected by `tax_engine.py` (the lotless kind). -/
inductive TransactionType where
  | buy
  | donate
  | earn
  | gift
  | move
  | sell
deriving DecidableEq, Repr

/-- The `value` attribute of the Python enum member (its lowercase name). -/
def TransactionType.value : TransactionType → String
  | .buy => "buy"
  | .donate => "donate"
  | .earn => "earn"
  | .gift => "gift"
  | .move => "move"
  | .sell => "sell"

/-- A timezone-aware timestamp, reduced to what the engine reads from it: a
point `time` on a total chronological order (comparisons, holding periods)
and the calendar `year` (yearly aggregation key). -/
structure Timestamp where
  time : Int
  year : Int
deriving DecidableEq, Repr

/-- The part of `AbstractTransaction` that `tax_engine.py` reads.  The
taxable predicate `is_taxable()` and the taxable amounts are defined in
transaction classes outside the sources, so they are carried as fields. -/
structure AbstractTransaction where
  timestamp : Timestamp
  asset : String
  transaction_type : TransactionType
  crypto_taxable_amount : Rat
  usd_taxable_amount : Rat
  taxable : Bool
deriving DecidableEq, Repr

/-- The `is_taxable()` predicate of a transaction (defined outside the
sources; carried as the `taxable` field). -/
def AbstractTransaction.is_taxable (t : AbstractTransaction) : Bool :=
  t.taxable

/-- An `InTransaction` (acquisition lot): its transaction part plus the
acquired quantity `crypto_in` and fee-inclusive cost `usd_in_with_fee`. -/
structure InTransaction extends AbstractTransaction where
  crypto_in : Rat
  usd_in_with_fee : Rat
deriving DecidableEq, Repr

/-- `InputData`: the three per-asset transaction collections, each an ordered
list (chronological with stable tie-break, per the spec). -/
structure InputData where
  asset : String
  in_transaction_set : List InTransaction
  out_transaction_set : List AbstractTransaction
  intra_transaction_set : List AbstractTransaction
deriving DecidableEq, Repr

/-- The three collections in the iteration order used by
`_create_taxable_event_set` and `_verify_computation`: acquisitions, then
disposals, then transfers. -/
def InputData.all_transactions (input : InputData) : List AbstractTransaction :=
  input.in_transaction_set.map (·.toAbstractTransaction) ++
    input.out_transaction_set ++ input.intra_transaction_set

/-! ## configuration.py -/

/-- `AccountingMethod` (configuration.py lines 31-33). -/
inductive AccountingMethod where
  | fifo
  | lifo
deriving DecidableEq, Repr

def notImplementedMessage : String := "not implemented yet"

/-- `AccountingMethod.type_check` (configuration.py lines 35-42).  The
`isinstance` test cannot fail for a value of the embedded enum type; the
remaining check rejects every method except FIFO. -/
def AccountingMethod.type_check (m : AccountingMethod) : Except PyErr AccountingMethod :=
  if m ≠ AccountingMethod.fifo then
    Except.error (PyErr.notImplementedError notImplementedMessage)
  else
    Except.ok m

/-- The fields of `Configuration` fixed by its first two constructor
arguments.  The JSON headers and asset/exchange/holder sets are loaded from
a file after the accounting-method check and are not read by the claims. -/
structure Configuration where
  configuration_path : String
  accounting_method : AccountingMethod
deriving DecidableEq, Repr

/-- `Configuration.__init__` (configuration.py lines 53-62) up to and
including the accounting-method check: `type_check_string` on
`configuration_path` always succeeds for a string, then
`AccountingMethod.type_check` runs; the file-existence check and JSON
loading are I/O performed only after this check and are elided. -/
def Configuration.init (configuration_path : String) (accounting_method : AccountingMethod) :
    Except PyErr Configuration :=
  (AccountingMethod.type_check accounting_method).map
    (fun m => { configuration_path := configuration_path, accounting_method := m })

/-! ## Gain/loss records (gain_loss.py, modelled from the spec) -/

/-- A `GainLoss` record: the fragment amount, the taxable event it belongs
to, and the acquisition lot it draws from (`none` for lotless events).
The class lives in `gain_loss.py`, outside the sources; its constructor
arguments are exactly these (tax_engine.py lines 106, 113, 120, 126). -/
structure GainLoss where
  crypto_amount : Rat
  taxable_event : AbstractTransaction
  from_lot : Option InTransaction
deriving DecidableEq, Repr

/-- Modelled from the spec: the record's asset is the taxable event's
asset (`gain_loss.py` is not part of the sources). -/
def GainLoss.asset (g : GainLoss) : String :=
  g.taxable_event.asset

/-- Modelled from the spec: "derived cost basis (proportional share of the
lot's USD cost, zero if lotless)" (`gain_loss.py` is not part of the
sources). -/
def GainLoss.usd_cost_basis (g : GainLoss) : Rat :=
  match g.from_lot with
  | none => 0
  | some lot => (g.crypto_amount / lot.crypto_in) * lot.usd_in_with_fee

/-- Modelled from the spec: "derived proceeds (proportional share of the
event's USD taxable amount)" (`gain_loss.py` is not part of the sources). -/
def GainLoss.taxable_event_usd_amount_with_fee_fraction (g : GainLoss) : Rat :=
  (g.crypto_amount / g.taxable_event.crypto_taxable_amount) * g.taxable_event.usd_taxable_amount

/-- Modelled from the spec: "derived gain/loss = proceeds - cost basis"
(`gain_loss.py` is not part of the sources). -/
def GainLoss.usd_gain (g : GainLoss) : Rat :=
  g.taxable_event_usd_amount_with_fee_fraction - g.usd_cost_basis

/-- One year, in the time unit of `Timestamp.time`. -/
def secondsInOneYear : Int := 365 * 24 * 60 * 60

/-- Modelled from the spec: "a short/long-term classification based on
holding period (lot acquisition timestamp to event timestamp; null-lot
records are never long-term)" (`gain_loss.py` is not part of the
sources). -/
def GainLoss.is_long_term_capital_gains (g : GainLoss) : Bool :=
  match g.from_lot with
  | none => false
  | some lot => decide (secondsInOneYear ≤ g.taxable_event.timestamp.time - lot.timestamp.time)

/-! ## The lot matcher: `_create_gain_and_loss_set` (tax_engine.py lines 87-135) -/

def insufficientLotsMessage : String := "Total in-transaction value < total taxable entries"

/-- The `except StopIteration as exception` handler (tax_engine.py lines
131-133): it raises `RP2ValueError` when `exception.value ==
from_lot_iterator` and otherwise falls through to `return gain_loss_set`.
The argument is the truth value of that comparison at the raising site.  In
Python, `next()` on an exhausted built-in iterator raises `StopIteration()`
whose `value` attribute is `None`, so the comparison is `None ==
from_lot_iterator`, which is false at every site; the code's behaviour is
obtained by passing `false` everywhere (see
`create_gain_and_loss_set`). -/
def handleStopIteration (stop_value_eq_from_lot_iterator : Bool) (s : List GainLoss) :
    Except PyErr (List GainLoss) :=
  if stop_value_eq_from_lot_iterator then
    Except.error (PyErr.rp2ValueError insufficientLotsMessage)
  else
    Except.ok s

/-- The `while True` loop of `_create_gain_and_loss_set` (tax_engine.py
lines 103-130).  State: `cur`/`cur_amt` are `taxable_event` /
`taxable_event_amount`, `lot`/`lot_amt` are `from_lot` / `from_lot_amount`,
`events`/`lots` are the items the two iterators have not yet produced, and
`acc` is `gain_loss_set` in insertion order.  Each `next()` on an exhausted
iterator transfers control to the `StopIteration` handler; `detect` is the
truth value the handler's comparison takes when the lot iterator is the
exhausted one (`false` in the code, since `exception.value` is `None`;
`true` in the spec-intended variant). -/
def match_lots (detect : Bool) (cur : AbstractTransaction) (cur_amt : Rat)
    (lot : InTransaction) (lot_amt : Rat)
    (events : List AbstractTransaction) (lots : List InTransaction)
    (acc : List GainLoss) : Except PyErr (List GainLoss) :=
  if cur.transaction_type = TransactionType.earn then
    -- Handle EARN transactions first (lines 104-110)
    let acc := acc ++ [⟨cur_amt, cur, none⟩]
    match events with
    | [] => handleStopIteration false acc
    | e :: es => match_lots detect e e.crypto_taxable_amount lot lot_amt es lots acc
  else if cur_amt = lot_amt then
    -- lines 112-118: advance both iterators, taxable event first
    let acc := acc ++ [⟨cur_amt, cur, some lot⟩]
    match events with
    | [] => handleStopIteration false acc
    | e :: es =>
      match lots with
      | [] => handleStopIteration detect acc
      | l :: ls => match_lots detect e e.crypto_taxable_amount l l.crypto_in es ls acc
  else if cur_amt < lot_amt then
    -- lines 119-124: consume part of the lot, advance the taxable event
    let acc := acc ++ [⟨cur_amt, cur, some lot⟩]
    match events with
    | [] => handleStopIteration false acc
    | e :: es => match_lots detect e e.crypto_taxable_amount lot (lot_amt - cur_amt) es lots acc
  else
    -- lines 125-130: consume the whole lot, advance the lot
    let acc := acc ++ [⟨lot_amt, cur, some lot⟩]
    match lots with
    | [] => handleStopIteration detect acc
    | l :: ls => match_lots detect cur (cur_amt - lot_amt) l l.crypto_in events ls acc
termination_by events.length + lots.length
decreasing_by
  all_goals simp only [List.length_cons]
  all_goals omega

/-- `_create_gain_and_loss_set` (tax_engine.py lines 87-135), parameterized
like `match_lots` by the truth value `detect` of the handler's comparison at
lot-iterator exhaustion.  The first `next` on each iterator (lines 98-101)
happens before the loop: an empty taxable-event set returns the empty set,
and an empty lot list transfers control to the handler even when the first
taxable event is lotless. -/
def create_gain_and_loss_set_core (detect : Bool) (input : InputData)
    (taxable_event_set : List AbstractTransaction) : Except PyErr (List GainLoss) :=
  match taxable_event_set with
  | [] => handleStopIteration false []
  | e :: es =>
    match input.in_transaction_set with
    | [] => handleStopIteration detect []
    | l :: ls => match_lots detect e e.crypto_taxable_amount l l.crypto_in es ls []

/-- `_create_gain_and_loss_set` as the code behaves: since
`StopIteration().value` is `None`, the handler's comparison with
`from_lot_iterator` is false at every raising site. -/
def create_gain_and_loss_set (input : InputData)
    (taxable_event_set : List AbstractTransaction) : Except PyErr (List GainLoss) :=
  create_gain_and_loss_set_core false input taxable_event_set

/-- Modelled from the spec: `_create_gain_and_loss_set` as the spec
describes it — "advancing the lot pointer past its end while taxable events
remain ... fails with a ValueError-class error" — i.e. with the handler
recognising lot-iterator exhaustion. -/
def create_gain_and_loss_set_spec (input : InputData)
    (taxable_event_set : List AbstractTransaction) : Except PyErr (List GainLoss) :=
  create_gain_and_loss_set_core true input taxable_event_set

/-! ### Single-step unfolding lemmas for `match_lots`

One lemma per (branch, iterator-outcome) pair of the loop body; every later
proof about the matcher reduces to these. -/

theorem match_lots_earn_nil (d : Bool) (cur : AbstractTransaction) (a : Rat)
    (lot : InTransaction) (la : Rat) (lots : List InTransaction) (acc : List GainLoss)
    (h : cur.transaction_type = TransactionType.earn) :
    match_lots d cur a lot la [] lots acc = handleStopIteration false (acc ++ [⟨a, cur, none⟩]) := by
  rw [match_lots]
  simp [h]

theorem match_lots_earn_cons (d : Bool) (cur : AbstractTransaction) (a : Rat)
    (lot : InTransaction) (la : Rat) (e : AbstractTransaction)
    (es : List AbstractTransaction) (lots : List InTransaction) (acc : List GainLoss)
    (h : cur.transaction_type = TransactionType.earn) :
    match_lots d cur a lot la (e :: es) lots acc =
      match_lots d e e.crypto_taxable_amount lot la es lots (acc ++ [⟨a, cur, none⟩]) := by
  rw [match_lots]
  simp [h]

theorem match_lots_eq_nil (d : Bool) (cur : AbstractTransaction) (a : Rat)
    (lot : InTransaction) (la : Rat) (lots : List InTransaction) (acc : List GainLoss)
    (h : cur.transaction_type ≠ TransactionType.earn) (ha : a = la) :
    match_lots d cur a lot la [] lots acc =
      handleStopIteration false (acc ++ [⟨a, cur, some lot⟩]) := by
  rw [match_lots]
  simp [h, ha]

theorem match_lots_eq_cons_nil (d : Bool) (cur : AbstractTransaction) (a : Rat)
    (lot : InTransaction) (la : Rat) (e : AbstractTransaction)
    (es : List AbstractTransaction) (acc : List GainLoss)
    (h : cur.transaction_type ≠ TransactionType.earn) (ha : a = la) :
    match_lots d cur a lot la (e :: es) [] acc =
      handleStopIteration d (acc ++ [⟨a, cur, some lot⟩]) := by
  rw [match_lots]
  simp [h, ha]

theorem match_lots_eq_cons_cons (d : Bool) (cur : AbstractTransaction) (a : Rat)
    (lot : InTransaction) (la : Rat) (e : AbstractTransaction)
    (es : List AbstractTransaction) (l : InTransaction) (ls : List InTransaction)
    (acc : List GainLoss)
    (h : cur.transaction_type ≠ TransactionType.earn) (ha : a = la) :
    match_lots d cur a lot la (e :: es) (l :: ls) acc =
      match_lots d e e.crypto_taxable_amount l l.crypto_in es ls
        (acc ++ [⟨a, cur, some lot⟩]) := by
  rw [match_lots]
  simp [h, ha]

theorem match_lots_lt_nil (d : Bool) (cur : AbstractTransaction) (a : Rat)
    (lot : InTransaction) (la : Rat) (lots : List InTransaction) (acc : List GainLoss)
    (h : cur.transaction_type ≠ TransactionType.earn) (ha : a < la) :
    match_lots d cur a lot la [] lots acc =
      handleStopIteration false (acc ++ [⟨a, cur, some lot⟩]) := by
  rw [match_lots]
  simp [h, ha, ne_of_lt ha]

theorem match_lots_lt_cons (d : Bool) (cur : AbstractTransaction) (a : Rat)
    (lot : InTransaction) (la : Rat) (e : AbstractTransaction)
    (es : List AbstractTransaction) (lots : List InTransaction) (acc : List GainLoss)
    (h : cur.transaction_type ≠ TransactionType.earn) (ha : a < la) :
    match_lots d cur a lot la (e :: es) lots acc =
      match_lots d e e.crypto_taxable_amount lot (la - a) es lots
        (acc ++ [⟨a, cur, some lot⟩]) := by
  rw [match_lots]
  simp [h, ha, ne_of_lt ha]

theorem match_lots_gt_nil (d : Bool) (cur : AbstractTransaction) (a : Rat)
    (lot : InTransaction) (la : Rat) (events : List AbstractTransaction) (acc : List GainLoss)
    (h : cur.transaction_type ≠ TransactionType.earn) (ha : la < a) :
    match_lots d cur a lot la events [] acc =
      handleStopIteration d (acc ++ [⟨la, cur, some lot⟩]) := by
  rw [match_lots]
  simp [h, (ne_of_lt ha).symm, not_lt_of_lt ha]

theorem match_lots_gt_cons (d : Bool) (cur : AbstractTransaction) (a : Rat)
    (lot : InTransaction) (la : Rat) (events : List AbstractTransaction)
    (l : InTransaction) (ls : List InTransaction) (acc : List GainLoss)
    (h : cur.transaction_type ≠ TransactionType.earn) (ha : la < a) :
    match_lots d cur a lot la events (l :: ls) acc =
      match_lots d cur (a - la) l l.crypto_in events ls (acc ++ [⟨la, cur, some lot⟩]) := by
  rw [match_lots]
  simp [h, (ne_of_lt ha).symm, not_lt_of_lt ha]

/-! ## Concrete inputs for the matcher claims -/

/-- Sum of the fragment crypto amounts of the records that reference the
taxable event `e` (the allocation the matcher gave `e`). -/
def allocated_to_event (e : AbstractTransaction) (gls : List GainLoss) : Rat :=
  ((gls.filter (fun g => decide (g.taxable_event = e))).map (fun g => g.crypto_amount)).foldl
    (· + ·) 0

def c1_buy5 : InTransaction := ⟨⟨⟨1, 2020⟩, "C1", TransactionType.buy, 0, 0, false⟩, 5, 50⟩

def c1_sell7 : AbstractTransaction := ⟨⟨2, 2020⟩, "C1", TransactionType.sell, 7, 70, true⟩

def c1_input : InputData := ⟨"C1", [c1_buy5], [c1_sell7], []⟩

/-- C1: the claim says that exhausting the acquisition-lot sequence while a
non-lotless taxable event still has unallocated amount makes
`_create_gain_and_loss_set` fail with `RP2ValueError` rather than return a
gain/loss set.  On the code this is false: `StopIteration().value` is `None`,
never equal to `from_lot_iterator`, so the handler at tax_engine.py line 132
falls through and the partially built set is returned.  With one lot of 5
units and one taxable SELL of 7 units the code returns a set with a single
5-unit record, while the spec-modelled variant (the handler recognising lot
exhaustion) raises the claimed `RP2ValueError`. -/
theorem lot_exhaustion_returns_partial_set :
    create_gain_and_loss_set c1_input [c1_sell7] = Except.ok [⟨5, c1_sell7, some c1_buy5⟩]
    ∧ create_gain_and_loss_set_spec c1_input [c1_sell7]
        = Except.error (PyErr.rp2ValueError insufficientLotsMessage) := by
  constructor
  · rw [create_gain_and_loss_set, create_gain_and_loss_set_core]
    show match_lots false c1_sell7 7 c1_buy5 5 [] [] [] = _
    rw [match_lots_gt_nil false c1_sell7 7 c1_buy5 5 [] [] (by decide) (by norm_num)]
    rw [handleStopIteration]
    simp
  · rw [create_gain_and_loss_set_spec, create_gain_and_loss_set_core]
    show match_lots true c1_sell7 7 c1_buy5 5 [] [] [] = _
    rw [match_lots_gt_nil true c1_sell7 7 c1_buy5 5 [] [] (by decide) (by norm_num)]
    rw [handleStopIteration]
    simp

def c2_buy4 : InTransaction := ⟨⟨⟨1, 2020⟩, "C2", TransactionType.buy, 0, 0, false⟩, 4, 40⟩

def c2_sell10 : AbstractTransaction := ⟨⟨2, 2020⟩, "C2", TransactionType.sell, 10, 100, true⟩

def c2_input : InputData := ⟨"C2", [c2_buy4], [c2_sell10], []⟩

/-- C2: the claim says every gain/loss set returned without error allocates
each taxable event's taxable crypto amount exactly ("every taxable event is
fully allocated or matching fails").  On the code this is false, for the same
reason as C1: when the lots run out, the handler's comparison with
`from_lot_iterator` is false (`StopIteration().value` is `None`) and a set is
returned in which the current event is only partially allocated.  With one
lot of 4 units and one taxable SELL of 10 units, the returned set allocates
4 of the event's 10 units. -/
theorem partial_allocation_returned_without_error :
    create_gain_and_loss_set c2_input [c2_sell10] = Except.ok [⟨4, c2_sell10, some c2_buy4⟩]
    ∧ allocated_to_event c2_sell10 [⟨4, c2_sell10, some c2_buy4⟩] = 4
    ∧ c2_sell10.crypto_taxable_amount = 10
    ∧ (4 : Rat) ≠ 10 := by
  refine ⟨?_, by simp [allocated_to_event], by decide, by norm_num⟩
  rw [create_gain_and_loss_set, create_gain_and_loss_set_core]
  show match_lots false c2_sell10 10 c2_buy4 4 [] [] [] = _
  rw [match_lots_gt_nil false c2_sell10 10 c2_buy4 4 [] [] (by decide) (by norm_num)]
  rw [handleStopIteration]
  simp

/-- C3: at every loop step whose current taxable event is not lotless,
exactly one of the three comparison branches runs — the three guards
`cur_amt = lot_amt`, `cur_amt < lot_amt`, `lot_amt < cur_amt` are mutually
exclusive and exhaustive — and each emits exactly the record and advances
exactly the pointers the claim describes.  With positive remaining amounts
no zero-amount record is emitted (each emitted fragment is `cur_amt` or
`lot_amt`, both positive) and the partially consumed lot of the middle
branch keeps a positive remaining quantity `lot_amt - cur_amt`. -/
theorem matcher_step_trichotomy (d : Bool) (cur : AbstractTransaction) (a : Rat)
    (lot : InTransaction) (la : Rat) (events : List AbstractTransaction)
    (lots : List InTransaction) (acc : List GainLoss)
    (hE : cur.transaction_type ≠ TransactionType.earn) (hc : 0 < a) (hl : 0 < la) :
    (a = la →
      0 < a ∧
      match_lots d cur a lot la events lots acc =
        (match events, lots with
         | [], _ => handleStopIteration false (acc ++ [⟨a, cur, some lot⟩])
         | _ :: _, [] => handleStopIteration d (acc ++ [⟨a, cur, some lot⟩])
         | e :: es, l :: ls =>
             match_lots d e e.crypto_taxable_amount l l.crypto_in es ls
               (acc ++ [⟨a, cur, some lot⟩])))
    ∧ (a < la →
        0 < a ∧ 0 < la - a ∧
        match_lots d cur a lot la events lots acc =
          (match events with
           | [] => handleStopIteration false (acc ++ [⟨a, cur, some lot⟩])
           | e :: es =>
               match_lots d e e.crypto_taxable_amount lot (la - a) es lots
                 (acc ++ [⟨a, cur, some lot⟩])))
    ∧ (la < a →
        0 < la ∧ 0 < a - la ∧
        match_lots d cur a lot la events lots acc =
          (match lots with
           | [] => handleStopIteration d (acc ++ [⟨la, cur, some lot⟩])
           | l :: ls =>
               match_lots d cur (a - la) l l.crypto_in events ls
                 (acc ++ [⟨la, cur, some lot⟩]))) := by
  refine ⟨fun ha => ⟨hc, ?_⟩, fun ha => ⟨hc, by linarith, ?_⟩, fun ha => ⟨hl, by linarith, ?_⟩⟩
  · match events, lots with
    | [], lots => exact match_lots_eq_nil d cur a lot la lots acc hE ha
    | e :: es, [] => exact match_lots_eq_cons_nil d cur a lot la e es acc hE ha
    | e :: es, l :: ls => exact match_lots_eq_cons_cons d cur a lot la e es l ls acc hE ha
  · match events with
    | [] => exact match_lots_lt_nil d cur a lot la lots acc hE ha
    | e :: es => exact match_lots_lt_cons d cur a lot la e es lots acc hE ha
  · match lots with
    | [] => exact match_lots_gt_nil d cur a lot la events acc hE ha
    | l :: ls => exact match_lots_gt_cons d cur a lot la events l ls acc hE ha

def c3_buy : InTransaction := ⟨⟨⟨1, 2021⟩, "C3", TransactionType.buy, 0, 0, false⟩, 5, 50⟩

def c3_sell : AbstractTransaction := ⟨⟨2, 2021⟩, "C3", TransactionType.sell, 2, 20, true⟩

/-- Witness for C3: the hypotheses of `matcher_step_trichotomy` hold at a
concrete non-lotless step (a SELL of 2 against a lot remainder of 5), and
the instantiated taxable-remainder-smaller branch evaluates as stated. -/
theorem matcher_step_trichotomy_witness :
    c3_sell.transaction_type ≠ TransactionType.earn
    ∧ (0 : Rat) < 2
    ∧ (0 : Rat) < 5
    ∧ ((2 : Rat) < 5 →
        (0 : Rat) < 2 ∧ (0 : Rat) < 5 - 2 ∧
        match_lots false c3_sell 2 c3_buy 5 [] [] [] =
          handleStopIteration false [⟨2, c3_sell, some c3_buy⟩]) :=
  ⟨by decide, by norm_num, by norm_num,
    (matcher_step_trichotomy false c3_sell 2 c3_buy 5 [] [] []
      (by decide) (by norm_num) (by norm_num)).2.1⟩

/-- C4 (amended): whenever the matching loop's current taxable event is of
the lotless kind (EARN), it emits exactly one record carrying the event's
full remaining amount with a null lot, advances only the taxable-event
pointer, and passes the whole lot state (`lot`, `lot_amt`, `lots`) on
unchanged — the EARN test precedes every amount comparison, so no hypothesis
on the amounts is needed.  The emitted record has zero cost basis and is
never classified as long-term capital gains. -/
theorem earn_step_emits_single_lotless_record (d : Bool) (cur : AbstractTransaction)
    (a : Rat) (lot : InTransaction) (la : Rat) (events : List AbstractTransaction)
    (lots : List InTransaction) (acc : List GainLoss)
    (h : cur.transaction_type = TransactionType.earn) :
    (match_lots d cur a lot la events lots acc =
      (match events with
       | [] => handleStopIteration false (acc ++ [⟨a, cur, none⟩])
       | e :: es =>
           match_lots d e e.crypto_taxable_amount lot la es lots (acc ++ [⟨a, cur, none⟩])))
    ∧ GainLoss.usd_cost_basis ⟨a, cur, none⟩ = 0
    ∧ GainLoss.is_long_term_capital_gains ⟨a, cur, none⟩ = false := by
  refine ⟨?_, rfl, rfl⟩
  match events with
  | [] => exact match_lots_earn_nil d cur a lot la lots acc h
  | e :: es => exact match_lots_earn_cons d cur a lot la e es lots acc h

def c4_buy5 : InTransaction := ⟨⟨⟨1, 2022⟩, "C4", TransactionType.buy, 0, 0, false⟩, 5, 50⟩

def c4_sell9 : AbstractTransaction := ⟨⟨2, 2022⟩, "C4", TransactionType.sell, 9, 90, true⟩

def c4_earn_lot : InTransaction := ⟨⟨⟨3, 2022⟩, "C4", TransactionType.earn, 3, 30, true⟩, 3, 30⟩

def c4_earn_event : AbstractTransaction := c4_earn_lot.toAbstractTransaction

def c4_input : InputData := ⟨"C4", [c4_buy5, c4_earn_lot], [c4_sell9], []⟩

/-- Counterexample to C4 as stated: an EARN taxable event for which the
matcher emits no record at all.  Lots: a purchase of 5 units and the earned
3 units; taxable events in order: a SELL of 9 units, then the EARN of 3.
The SELL consumes both lots and exhausts the lot iterator, control reaches
the `StopIteration` handler (whose comparison is false, see C1), and the
returned set contains no record for the EARN event — so it is not the case
that every lotless taxable event yields exactly one null-lot record. -/
theorem earn_event_skipped_when_lots_exhausted :
    create_gain_and_loss_set c4_input [c4_sell9, c4_earn_event] =
      Except.ok [⟨5, c4_sell9, some c4_buy5⟩, ⟨3, c4_sell9, some c4_earn_lot⟩]
    ∧ c4_earn_event.transaction_type = TransactionType.earn
    ∧ List.filter (fun g : GainLoss => decide (g.taxable_event = c4_earn_event))
        [⟨5, c4_sell9, some c4_buy5⟩, ⟨3, c4_sell9, some c4_earn_lot⟩] = [] := by
  refine ⟨?_, by decide, by decide⟩
  rw [create_gain_and_loss_set, create_gain_and_loss_set_core]
  show match_lots false c4_sell9 9 c4_buy5 5 [c4_earn_event] [c4_earn_lot] [] = _
  rw [match_lots_gt_cons false c4_sell9 9 c4_buy5 5 [c4_earn_event] c4_earn_lot [] []
    (by decide) (by norm_num)]
  norm_num [show c4_earn_lot.crypto_in = 3 from rfl]
  rw [match_lots_gt_nil false c4_sell9 4 c4_earn_lot 3 [c4_earn_event]
    [⟨5, c4_sell9, some c4_buy5⟩] (by decide) (by norm_num)]
  rw [handleStopIteration]
  simp

/-- Witness for the amended C4: the hypothesis of
`earn_step_emits_single_lotless_record` holds at a concrete EARN event and
the instantiated step evaluates as stated. -/
theorem earn_step_emits_single_lotless_record_witness :
    c4_earn_event.transaction_type = TransactionType.earn
    ∧ (match_lots false c4_earn_event 3 c4_buy5 5 [] [] [] =
          handleStopIteration false [⟨3, c4_earn_event, none⟩]
        ∧ GainLoss.usd_cost_basis ⟨3, c4_earn_event, none⟩ = 0
        ∧ GainLoss.is_long_term_capital_gains ⟨3, c4_earn_event, none⟩ = false) :=
  ⟨by decide,
    earn_step_emits_single_lotless_record false c4_earn_event 3 c4_buy5 5 [] [] [] (by decide)⟩

/-! ## `_create_taxable_event_set` (tax_engine.py lines 69-84) -/

/-- Chronological order on transactions. -/
def chrono_le (a b : AbstractTransaction) : Prop :=
  a.timestamp.time ≤ b.timestamp.time

/-- Modelled from the spec: `TransactionSet.add_entry` (`transaction_set.py`
is not part of the sources) keeps the collection chronologically ordered
with a stable tie-break — the new entry goes before the first strictly
later entry, after entries with the same timestamp. -/
def TransactionSet.add_entry : List AbstractTransaction → AbstractTransaction →
    List AbstractTransaction
  | [], t => [t]
  | b :: rest, t =>
    if t.timestamp.time < b.timestamp.time then t :: b :: rest
    else b :: TransactionSet.add_entry rest t

/-- `_create_taxable_event_set`: iterate the three collections in order
(acquisitions, disposals, transfers) and `add_entry` every transaction whose
`is_taxable()` is true into a fresh `TransactionSet`.  The inputs are only
read; the result is a new list. -/
def create_taxable_event_set (input : InputData) : List AbstractTransaction :=
  input.all_transactions.foldl
    (fun s t => if t.is_taxable then TransactionSet.add_entry s t else s) []

theorem add_entry_perm (s : List AbstractTransaction) (t : AbstractTransaction) :
    (TransactionSet.add_entry s t).Perm (t :: s) := by
  induction s with
  | nil => simp [TransactionSet.add_entry]
  | cons b rest ih =>
    rw [TransactionSet.add_entry]
    by_cases h : t.timestamp.time < b.timestamp.time
    · simp [h]
    · simpa [h] using (ih.cons b).trans (List.Perm.swap t b rest)

theorem add_entry_sorted (t : AbstractTransaction) :
    ∀ s, List.Pairwise chrono_le s → List.Pairwise chrono_le (TransactionSet.add_entry s t)
  | [], _ => by simp [TransactionSet.add_entry]
  | b :: rest, h => by
    rw [TransactionSet.add_entry]
    rw [List.pairwise_cons] at h
    by_cases hlt : t.timestamp.time < b.timestamp.time
    · rw [if_pos hlt]
      refine List.pairwise_cons.2 ⟨?_, List.pairwise_cons.2 h⟩
      intro x hx
      rcases List.mem_cons.1 hx with rfl | hx
      · exact le_of_lt hlt
      · exact le_trans (le_of_lt hlt) (h.1 x hx)
    · rw [if_neg hlt]
      refine List.pairwise_cons.2 ⟨?_, add_entry_sorted t rest h.2⟩
      intro x hx
      rcases List.mem_cons.1 ((add_entry_perm rest t).mem_iff.1 hx) with rfl | hx2
      · exact le_of_not_lt hlt
      · exact h.1 x hx2

theorem taxable_foldl_perm :
    ∀ (l : List AbstractTransaction) (s : List AbstractTransaction),
      (l.foldl (fun s t => if t.is_taxable then TransactionSet.add_entry s t else s) s).Perm
        ((l.filter (fun t => t.is_taxable)) ++ s)
  | [], s => by simp
  | x :: xs, s => by
    rw [List.foldl_cons]
    by_cases hx : x.is_taxable
    · rw [if_pos hx, List.filter_cons_of_pos hx]
      refine (taxable_foldl_perm xs (TransactionSet.add_entry s x)).trans ?_
      refine (List.Perm.append_left _ (add_entry_perm s x)).trans ?_
      exact List.perm_middle
    · rw [if_neg hx, List.filter_cons_of_neg (by simpa using hx)]
      exact taxable_foldl_perm xs s

theorem taxable_foldl_sorted :
    ∀ (l : List AbstractTransaction) (s : List AbstractTransaction),
      List.Pairwise chrono_le s →
      List.Pairwise chrono_le
        (l.foldl (fun s t => if t.is_taxable then TransactionSet.add_entry s t else s) s)
  | [], _, h => h
  | x :: xs, s, h => by
    rw [List.foldl_cons]
    by_cases hx : x.is_taxable
    · rw [if_pos hx]
      exact taxable_foldl_sorted xs _ (add_entry_sorted x s h)
    · rw [if_neg hx]
      exact taxable_foldl_sorted xs s h

/-- C5: the taxable event set is exactly the taxable subset of the three
input collections — a permutation of `filter is_taxable` over acquisitions,
disposals and transfers in iteration order — and it is chronologically
ordered.  The embedded function is pure: it only reads `input` and returns
a fresh list, so the input collections are untouched. -/
theorem taxable_event_set_exact_and_sorted (input : InputData) :
    (create_taxable_event_set input).Perm
        (input.all_transactions.filter (fun t => t.is_taxable))
    ∧ List.Pairwise chrono_le (create_taxable_event_set input) := by
  constructor
  · simpa using taxable_foldl_perm input.all_transactions []
  · exact taxable_foldl_sorted input.all_transactions [] (by simp)

/-! ## `_create_yearly_gain_loss_list` (tax_engine.py lines 138-213) -/

/-- `_YearlyGainLossId` (tax_engine.py lines 138-143): the aggregation key. -/
structure YearlyGainLossId where
  year : Int
  asset : String
  transaction_type : TransactionType
  is_long_term_capital_gains : Bool
deriving DecidableEq, Repr

/-- `_YearlyGainLossAmounts` (tax_engine.py lines 147-152). -/
structure YearlyGainLossAmounts where
  crypto_amount : Rat
  usd_amount : Rat
  usd_cost_basis : Rat
  usd_gain_loss : Rat
deriving DecidableEq, Repr

/-- The key computed for a record (tax_engine.py lines 162-167). -/
def gain_loss_key (g : GainLoss) : YearlyGainLossId :=
  ⟨g.taxable_event.timestamp.year, g.asset, g.taxable_event.transaction_type,
    g.is_long_term_capital_gains⟩

/-- The contribution of one record (tax_engine.py lines 169-172): its crypto
amount, USD proceeds, USD cost basis and USD gain/loss. -/
def gain_loss_amounts (g : GainLoss) : YearlyGainLossAmounts :=
  ⟨g.crypto_amount, g.taxable_event_usd_amount_with_fee_fraction, g.usd_cost_basis, g.usd_gain⟩

def YearlyGainLossAmounts.add (a b : YearlyGainLossAmounts) : YearlyGainLossAmounts :=
  ⟨a.crypto_amount + b.crypto_amount, a.usd_amount + b.usd_amount,
    a.usd_cost_basis + b.usd_cost_basis, a.usd_gain_loss + b.usd_gain_loss⟩

/-- The zero summary used by `setdefault` (tax_engine.py line 168). -/
def zeroAmounts : YearlyGainLossAmounts := ⟨0, 0, 0, 0⟩

/-- Lookup in the summaries dictionary (modelling `dict.__getitem__` /
`in`). -/
def alistGet (k : YearlyGainLossId) :
    List (YearlyGainLossId × YearlyGainLossAmounts) → Option YearlyGainLossAmounts
  | [] => none
  | kv :: rest => if kv.1 = k then some kv.2 else alistGet k rest

/-- Assignment in the summaries dictionary: update in place if the key is
present, append otherwise (Python dicts preserve first-insertion order). -/
def alistSet (k : YearlyGainLossId) (v : YearlyGainLossAmounts) :
    List (YearlyGainLossId × YearlyGainLossAmounts) →
      List (YearlyGainLossId × YearlyGainLossAmounts)
  | [] => [(k, v)]
  | kv :: rest => if kv.1 = k then (k, v) :: rest else kv :: alistSet k v rest

/-- One iteration of the accumulation loop (tax_engine.py lines 160-178):
`value = summaries.setdefault(key, zero)` followed by
`summaries[key] = value + contribution`. -/
def update_summaries (s : List (YearlyGainLossId × YearlyGainLossAmounts)) (g : GainLoss) :
    List (YearlyGainLossId × YearlyGainLossAmounts) :=
  alistSet (gain_loss_key g)
    (((alistGet (gain_loss_key g) s).getD zeroAmounts).add (gain_loss_amounts g)) s

/-- The summaries dictionary after the whole accumulation loop. -/
def create_summaries (gls : List GainLoss) :
    List (YearlyGainLossId × YearlyGainLossAmounts) :=
  gls.foldl update_summaries []

theorem alistGet_set_eq (k : YearlyGainLossId) (v : YearlyGainLossAmounts) :
    ∀ s, alistGet k (alistSet k v s) = some v
  | [] => by simp [alistGet, alistSet]
  | kv :: rest => by
    rw [alistSet]
    by_cases h : kv.1 = k
    · simp [alistGet, h]
    · rw [if_neg h, alistGet, if_neg h]
      exact alistGet_set_eq k v rest

theorem alistGet_set_ne (k k2 : YearlyGainLossId) (v : YearlyGainLossAmounts)
    (h : k ≠ k2) : ∀ s, alistGet k2 (alistSet k v s) = alistGet k2 s
  | [] => by simp [alistGet, alistSet, h]
  | kv :: rest => by
    rw [alistSet]
    by_cases h1 : kv.1 = k
    · rw [if_pos h1, alistGet, alistGet, if_neg h, if_neg (h1 ▸ h)]
    · rw [if_neg h1, alistGet, alistGet]
      by_cases h2 : kv.1 = k2
      · rw [if_pos h2, if_pos h2]
      · rw [if_neg h2, if_neg h2]
        exact alistGet_set_ne k k2 v h rest

theorem alistGet_update (s : List (YearlyGainLossId × YearlyGainLossAmounts))
    (g : GainLoss) (k : YearlyGainLossId) :
    alistGet k (update_summaries s g) =
      if gain_loss_key g = k then
        some (((alistGet k s).getD zeroAmounts).add (gain_loss_amounts g))
      else alistGet k s := by
  rw [update_summaries]
  by_cases h : gain_loss_key g = k
  · rw [if_pos h, h, alistGet_set_eq]
  · rw [if_neg h, alistGet_set_ne _ _ _ h]

/-- Folding one record into an optional running summary: absent keys start
from the zero summary. -/
def accumOpt (o : Option YearlyGainLossAmounts) (g : GainLoss) :
    Option YearlyGainLossAmounts :=
  some ((o.getD zeroAmounts).add (gain_loss_amounts g))

theorem create_summaries_get_aux :
    ∀ (gls : List GainLoss) (s : List (YearlyGainLossId × YearlyGainLossAmounts))
      (k : YearlyGainLossId),
      alistGet k (gls.foldl update_summaries s) =
        (gls.filter (fun g => decide (gain_loss_key g = k))).foldl accumOpt (alistGet k s)
  | [], _, _ => rfl
  | g :: t, s, k => by
    rw [List.foldl_cons]
    by_cases h : gain_loss_key g = k
    · rw [List.filter_cons_of_pos (by simpa using h), List.foldl_cons]
      rw [create_summaries_get_aux t (update_summaries s g) k]
      rw [alistGet_update, if_pos h]
      rfl
    · rw [List.filter_cons_of_neg (by simpa using h)]
      rw [create_summaries_get_aux t (update_summaries s g) k]
      rw [alistGet_update, if_neg h]

theorem foldl_accumOpt_some (v : YearlyGainLossAmounts) :
    ∀ l : List GainLoss,
      l.foldl accumOpt (some v) =
        some (l.foldl (fun a g => a.add (gain_loss_amounts g)) v)
  | [] => rfl
  | g :: t => by
    rw [List.foldl_cons, List.foldl_cons]
    exact foldl_accumOpt_some _ t

theorem keys_update (s : List (YearlyGainLossId × YearlyGainLossAmounts)) (g : GainLoss) :
    (update_summaries s g).map Prod.fst =
      if gain_loss_key g ∈ s.map Prod.fst then s.map Prod.fst
      else s.map Prod.fst ++ [gain_loss_key g] := by
  rw [update_summaries]
  generalize (((alistGet (gain_loss_key g) s).getD zeroAmounts).add (gain_loss_amounts g)) = v
  induction s with
  | nil => simp [alistSet]
  | cons kv rest ih =>
    rw [alistSet]
    by_cases h : kv.1 = gain_loss_key g
    · simp [h]
    · rw [if_neg h, List.map_cons, ih, List.map_cons]
      by_cases h2 : gain_loss_key g ∈ rest.map Prod.fst
      · rw [if_pos h2, if_pos (List.mem_cons.2 (Or.inr h2))]
      · rw [if_neg h2, if_neg ?_, List.cons_append]
        intro hc
        rcases List.mem_cons.1 hc with hc | hc
        · exact h hc.symm
        · exact h2 hc

theorem nodup_keys_update (s : List (YearlyGainLossId × YearlyGainLossAmounts))
    (g : GainLoss) (h : (s.map Prod.fst).Nodup) :
    ((update_summaries s g).map Prod.fst).Nodup := by
  rw [keys_update]
  by_cases h2 : gain_loss_key g ∈ s.map Prod.fst
  · rw [if_pos h2]
    exact h
  · rw [if_neg h2]
    simp [List.nodup_append, h, h2]

theorem nodup_keys_foldl :
    ∀ (gls : List GainLoss) (s : List (YearlyGainLossId × YearlyGainLossAmounts)),
      (s.map Prod.fst).Nodup → ((gls.foldl update_summaries s).map Prod.fst).Nodup
  | [], _, h => h
  | g :: t, s, h => by
    rw [List.foldl_cons]
    exact nodup_keys_foldl t (update_summaries s g) (nodup_keys_update s g h)

/-- C6: the yearly aggregation produces exactly one summary per distinct
key occurring in the records — the summaries dictionary's keys are distinct
and a key is present exactly when some record computes it — and the summary
stored for a key is the fold, starting from the zero summary, that adds
each matching record's crypto amount, USD proceeds, USD cost basis and USD
gain/loss exactly once, in record order. -/
theorem yearly_aggregation_exact (gls : List GainLoss) (k : YearlyGainLossId) :
    alistGet k (create_summaries gls) =
      (if gls.filter (fun g => decide (gain_loss_key g = k)) = [] then none
       else some ((gls.filter (fun g => decide (gain_loss_key g = k))).foldl
         (fun a g => a.add (gain_loss_amounts g)) zeroAmounts))
    ∧ ((create_summaries gls).map Prod.fst).Nodup := by
  constructor
  · rw [create_summaries, create_summaries_get_aux gls [] k]
    cases hf : gls.filter (fun g => decide (gain_loss_key g = k)) with
    | nil => rfl
    | cons g t =>
      rw [if_neg (by simp), List.foldl_cons, List.foldl_cons]
      show t.foldl accumOpt (accumOpt none g) = _
      rw [show accumOpt none g = some (zeroAmounts.add (gain_loss_amounts g)) from rfl]
      exact foldl_accumOpt_some _ t
  · exact nodup_keys_foldl gls [] (by simp)

/-! ## `_verify_computation` (tax_engine.py lines 217-273) -/

/-- Running sum in iteration order (the `+=` accumulations). -/
def sum_of (l : List Rat) : Rat :=
  l.foldl (· + ·) 0

/-- `usd_taxable_amount_total_verify`: USD taxable amounts summed over the
three raw collections in order (tax_engine.py lines 233-244). -/
def usd_taxable_amount_total_verify (input : InputData) : Rat :=
  sum_of (input.all_transactions.map (fun t => t.usd_taxable_amount))

/-- `crypto_earned_amount_total_verify` (tax_engine.py lines 233-236). -/
def crypto_earned_amount_total_verify (input : InputData) : Rat :=
  sum_of (input.in_transaction_set.map (fun t => t.crypto_taxable_amount))

/-- `crypto_sold_amount_total_verify` (tax_engine.py lines 237-244). -/
def crypto_sold_amount_total_verify (input : InputData) : Rat :=
  sum_of ((input.out_transaction_set ++ input.intra_transaction_set).map
    (fun t => t.crypto_taxable_amount))

/-- `crypto_taxable_amount_total_verify` (tax_engine.py line 246). -/
def crypto_taxable_amount_total_verify (input : InputData) : Rat :=
  crypto_sold_amount_total_verify input + crypto_earned_amount_total_verify input

/-- The cost-basis loop (tax_engine.py lines 249-258): walk the acquisition
lots in order, consuming whole lots while the running total stays within the
total sold amount, and fraction the first lot that overshoots, then stop.
`total` is `crypto_in_amount_total`, `cost` is `cost_basis_total_verify`. -/
def cost_basis_walk (sold : Rat) : List InTransaction → Rat → Rat → Rat
  | [], _, cost => cost
  | t :: ts, total, cost =>
    if total + t.crypto_in > sold then
      cost + ((sold - total) / t.crypto_in) * t.usd_in_with_fee
    else
      cost_basis_walk sold ts (total + t.crypto_in) (cost + t.usd_in_with_fee)

/-- `cost_basis_total_verify` as computed by the loop. -/
def cost_basis_total_verify (input : InputData) : Rat :=
  cost_basis_walk (crypto_sold_amount_total_verify input) input.in_transaction_set 0 0

/-- `gain_loss_total_verify` (tax_engine.py line 260). -/
def gain_loss_total_verify (input : InputData) : Rat :=
  usd_taxable_amount_total_verify input - cost_basis_total_verify input

def cryptoIncongruenceMessage : String := "total crypto taxable amount incongruence detected"

def usdIncongruenceMessage : String := "total usd taxable amount incongruence detected"

def costBasisIncongruenceMessage : String := "cost basis incongruence detected"

def gainLossIncongruenceMessage : String := "total gain/loss incongruence detected"

/-- `_verify_computation` (tax_engine.py lines 217-273): compare the four
totals summed from the yearly summaries against the independently
recomputed totals; the first mismatch raises a plain `Exception` (not an
RP2 error class).  `none` means the function returned normally. -/
def verify_computation (input : InputData)
    (crypto_taxable_amount_total usd_taxable_amount_total cost_basis_total gain_loss_total :
      Rat) : Option PyErr :=
  if crypto_taxable_amount_total ≠ crypto_taxable_amount_total_verify input then
    some (PyErr.exception cryptoIncongruenceMessage)
  else if usd_taxable_amount_total ≠ usd_taxable_amount_total_verify input then
    some (PyErr.exception usdIncongruenceMessage)
  else if cost_basis_total ≠ cost_basis_total_verify input then
    some (PyErr.exception costBasisIncongruenceMessage)
  else if gain_loss_total ≠ gain_loss_total_verify input then
    some (PyErr.exception gainLossIncongruenceMessage)
  else
    none

/-- C8: `_verify_computation` raises exactly when at least one of the four
totals differs from its independently recomputed counterpart — the crypto
taxable total, the USD taxable total, the cost basis obtained by
`cost_basis_walk` (whole lots up to the sold amount, final overlapping lot
fractioned proportionally), and the gain/loss — and any raised error is a
plain `Exception`, not one of the user-facing RP2 error kinds. -/
theorem verify_computation_raises_iff_mismatch (input : InputData)
    (c u b g : Rat) :
    ((verify_computation input c u b g).isSome ↔
      ¬(c = crypto_taxable_amount_total_verify input
        ∧ u = usd_taxable_amount_total_verify input
        ∧ b = cost_basis_total_verify input
        ∧ g = gain_loss_total_verify input))
    ∧ (verify_computation input c u b g = none
        ∨ ∃ s, verify_computation input c u b g = some (PyErr.exception s)
            ∧ (PyErr.exception s).is_user_facing_rp2_error = false) := by
  rw [verify_computation]
  constructor
  · split_ifs <;> simp [*]
  · split_ifs <;> simp [PyErr.is_user_facing_rp2_error]

/-- `YearlyGainLoss` (computed_data.py, outside the sources; its fields are
exactly the keyword arguments of the constructor call at tax_engine.py
lines 186-195). -/
structure YearlyGainLoss where
  year : Int
  asset : String
  transaction_type : TransactionType
  is_long_term_capital_gains : Bool
  crypto_amount : Rat
  usd_amount : Rat
  usd_cost_basis : Rat
  usd_gain_loss : Rat
deriving DecidableEq, Repr

/-- `_yearly_gain_loss_sort_criteria` (tax_engine.py lines 207-213): the
composite sort key, a space-separated string of asset, year, LONG/SHORT and
the transaction-type value. -/
def yearly_gain_loss_sort_criteria (y : YearlyGainLoss) : String :=
  y.asset ++ " " ++ toString y.year ++ " "
    ++ (if y.is_long_term_capital_gains then "LONG" else "SHORT") ++ " "
    ++ y.transaction_type.value

/-- The order in which `sorted(..., key=_yearly_gain_loss_sort_criteria,
reverse=True)` lists the summaries: earlier entries have
greater-or-equal composite key. -/
def ygl_desc (a b : YearlyGainLoss) : Prop :=
  yearly_gain_loss_sort_criteria b ≤ yearly_gain_loss_sort_criteria a

instance : DecidableRel ygl_desc := fun a b => by
  rw [ygl_desc]
  infer_instance

instance : IsTotal YearlyGainLoss ygl_desc :=
  ⟨fun a b => le_total (yearly_gain_loss_sort_criteria b) (yearly_gain_loss_sort_criteria a)⟩

instance : IsTrans YearlyGainLoss ygl_desc :=
  ⟨fun _ _ _ hab hbc => le_trans hbc hab⟩

/-- The `YearlyGainLoss` built from one summaries entry (tax_engine.py
lines 186-195). -/
def yearly_from_summary (kv : YearlyGainLossId × YearlyGainLossAmounts) : YearlyGainLoss :=
  ⟨kv.1.year, kv.1.asset, kv.1.transaction_type, kv.1.is_long_term_capital_gains,
    kv.2.crypto_amount, kv.2.usd_amount, kv.2.usd_cost_basis, kv.2.usd_gain_loss⟩

/-- `_create_yearly_gain_loss_list` (tax_engine.py lines 155-204): build the
summaries dictionary, turn it into yearly summaries, sum the four totals,
run `_verify_computation` (whose `Exception` aborts the computation), and
return the summaries sorted by the composite key in reverse.  The
summaries' iteration order models the Python set insertion; the totals and
the sorted output do not depend on it. -/
def create_yearly_gain_loss_list (input : InputData) (gls : List GainLoss) :
    Except PyErr (List YearlyGainLoss) :=
  let ygl := (create_summaries gls).map yearly_from_summary
  let crypto_taxable_amount_total := sum_of (ygl.map (fun y => y.crypto_amount))
  let usd_taxable_amount_total := sum_of (ygl.map (fun y => y.usd_amount))
  let cost_basis_total := sum_of (ygl.map (fun y => y.usd_cost_basis))
  let gain_loss_total := sum_of (ygl.map (fun y => y.usd_gain_loss))
  match verify_computation input crypto_taxable_amount_total usd_taxable_amount_total
      cost_basis_total gain_loss_total with
  | some e => Except.error e
  | none => Except.ok (List.insertionSort ygl_desc ygl)

/-- C7: every list `_create_yearly_gain_loss_list` returns is sorted in
descending order of the composite key (asset, year, term classification,
event kind): each summary's key is greater than or equal to every later
summary's key. -/
theorem yearly_list_sorted_descending (input : InputData) (gls : List GainLoss)
    (l : List YearlyGainLoss) (h : create_yearly_gain_loss_list input gls = Except.ok l) :
    List.Pairwise
      (fun a b => yearly_gain_loss_sort_criteria b ≤ yearly_gain_loss_sort_criteria a) l := by
  simp only [create_yearly_gain_loss_list] at h
  split at h
  · exact absurd h (by simp)
  · rw [Except.ok.injEq] at h
    subst h
    exact List.sorted_insertionSort ygl_desc _

def c7_input : InputData := ⟨"C7", [], [], []⟩

/-- Witness for C7: the hypothesis of `yearly_list_sorted_descending` is
satisfiable — on an input with no transactions and no records the function
returns a list — and the returned list is sorted as claimed. -/
theorem yearly_list_sorted_descending_witness :
    create_yearly_gain_loss_list c7_input [] = Except.ok []
    ∧ List.Pairwise
        (fun a b => yearly_gain_loss_sort_criteria b ≤ yearly_gain_loss_sort_criteria a)
        ([] : List YearlyGainLoss) := by
  have h : create_yearly_gain_loss_list c7_input [] = Except.ok [] := by
    rw [create_yearly_gain_loss_list]
    norm_num [create_summaries, sum_of, verify_computation, c7_input,
      crypto_taxable_amount_total_verify, crypto_sold_amount_total_verify,
      crypto_earned_amount_total_verify, usd_taxable_amount_total_verify,
      cost_basis_total_verify, cost_basis_walk, gain_loss_total_verify,
      InputData.all_transactions, List.insertionSort]
  exact ⟨h, yearly_list_sorted_descending c7_input [] [] h⟩

/-- C9: constructing a `Configuration` with any accounting method other
than FIFO fails during `__init__` — `AccountingMethod.type_check` raises
`NotImplementedError` before the configuration exists, hence before any
matching can run — while FIFO passes this check, both in `type_check`
itself and through `Configuration.init`. -/
theorem non_fifo_accounting_method_fails_fast (p : String) (m : AccountingMethod)
    (h : m ≠ AccountingMethod.fifo) :
    AccountingMethod.type_check m = Except.error (PyErr.notImplementedError notImplementedMessage)
    ∧ Configuration.init p m = Except.error (PyErr.notImplementedError notImplementedMessage)
    ∧ AccountingMethod.type_check AccountingMethod.fifo = Except.ok AccountingMethod.fifo
    ∧ Configuration.init p AccountingMethod.fifo =
        Except.ok ⟨p, AccountingMethod.fifo⟩ := by
  refine ⟨?_, ?_, rfl, rfl⟩
  · rw [AccountingMethod.type_check, if_pos h]
  · rw [Configuration.init, AccountingMethod.type_check, if_pos h]
    rfl

/-- Witness for C9: the hypothesis holds for LIFO and the instantiated
conclusion follows. -/
theorem non_fifo_accounting_method_fails_fast_witness :
    AccountingMethod.lifo ≠ AccountingMethod.fifo
    ∧ (AccountingMethod.type_check AccountingMethod.lifo =
          Except.error (PyErr.notImplementedError notImplementedMessage)
        ∧ Configuration.init "config.json" AccountingMethod.lifo =
            Except.error (PyErr.notImplementedError notImplementedMessage)
        ∧ AccountingMethod.type_check AccountingMethod.fifo = Except.ok AccountingMethod.fifo
        ∧ Configuration.init "config.json" AccountingMethod.fifo =
            Except.ok ⟨"config.json", AccountingMethod.fifo⟩) :=
  ⟨by decide, non_fifo_accounting_method_fails_fast "config.json" AccountingMethod.lifo
    (by decide)⟩

/-! ## `compute_tax` (tax_engine.py lines 36-66) -/

/-- Modelled from Python `decimal` semantics (`rp2_decimal.py` is not part
of the sources): dividing by a zero `Decimal` raises; otherwise the exact
quotient is returned. -/
def decimal_div (a b : Rat) : Except PyErr Rat :=
  if b = 0 then Except.error PyErr.decimalDivisionByZero else Except.ok (a / b)

/-- `ComputedData` (computed_data.py, outside the sources): the constructor
arguments of the call at tax_engine.py lines 58-66.  The `BalanceSet` field
is elided: `balance.py` is not part of the sources and no claim reads it. -/
structure ComputedData where
  asset : String
  taxable_event_set : List AbstractTransaction
  gain_loss_set : List GainLoss
  yearly_gain_loss_list : List YearlyGainLoss
  price_per_unit : Rat
  input_data : InputData
deriving DecidableEq, Repr

set_option linter.unusedVariables false in
/-- `compute_tax` (tax_engine.py lines 36-66): taxable event set, gain/loss
set, yearly list (with its embedded verification), then the average price
per unit `usd_in_with_fee_running_sum / crypto_in_running_sum` computed with
no guard on the divisor.  Each `match` propagates the exception of the
corresponding stage; the two type checks at lines 37-38 cannot fail for
values of the embedded types, and the `BalanceSet` construction is
elided; `configuration` is threaded through as in the source but only its
presence is needed. -/
def compute_tax (configuration : Configuration) (input_data : InputData) :
    Except PyErr ComputedData :=
  let taxable_event_set := create_taxable_event_set input_data
  match create_gain_and_loss_set input_data taxable_event_set with
  | Except.error e => Except.error e
  | Except.ok gain_loss_set =>
    match create_yearly_gain_loss_list input_data gain_loss_set with
    | Except.error e => Except.error e
    | Except.ok yearly_gain_loss_list =>
      let crypto_in_running_sum :=
        sum_of (input_data.in_transaction_set.map (fun t => t.crypto_in))
      let usd_in_with_fee_running_sum :=
        sum_of (input_data.in_transaction_set.map (fun t => t.usd_in_with_fee))
      match decimal_div usd_in_with_fee_running_sum crypto_in_running_sum with
      | Except.error e => Except.error e
      | Except.ok price_per_unit =>
        Except.ok ⟨input_data.asset, taxable_event_set, gain_loss_set,
          yearly_gain_loss_list, price_per_unit, input_data⟩

theorem foldl_add_of_all_zero (l : List Rat) :
    ∀ a : Rat, (∀ x ∈ l, x = 0) → l.foldl (· + ·) a = a := by
  induction l with
  | nil => intro a _; rfl
  | cons x xs ih =>
    intro a h
    rw [List.foldl_cons, h x (List.mem_cons_self x xs), add_zero]
    exact ih a (fun y hy => h y (List.mem_cons_of_mem x hy))

theorem sum_of_all_zero (l : List Rat) (h : ∀ x ∈ l, x = 0) : sum_of l = 0 :=
  foldl_add_of_all_zero l 0 h

theorem foldl_add_init_le (l : List Rat) :
    ∀ a : Rat, (∀ x ∈ l, 0 ≤ x) → a ≤ l.foldl (· + ·) a := by
  induction l with
  | nil => intro a _; exact le_refl a
  | cons x xs ih =>
    intro a h
    rw [List.foldl_cons]
    calc a ≤ a + x := le_add_of_nonneg_right (h x (List.mem_cons_self x xs))
    _ ≤ xs.foldl (· + ·) (a + x) := ih (a + x) (fun y hy => h y (List.mem_cons_of_mem x hy))

theorem lots_empty_of_sum_zero (ins : List InTransaction)
    (hpos : ∀ l ∈ ins, 0 < l.crypto_in)
    (hsum : sum_of (ins.map (fun t => t.crypto_in)) = 0) : ins = [] := by
  match ins with
  | [] => rfl
  | t :: ts =>
    exfalso
    have h1 : (0 : Rat) + t.crypto_in ≤ sum_of ((t :: ts).map (fun t => t.crypto_in)) := by
      rw [List.map_cons, sum_of, List.foldl_cons]
      refine foldl_add_init_le _ _ ?_
      intro x hx
      obtain ⟨y, hy, rfl⟩ := List.mem_map.1 hx
      exact le_of_lt (hpos y (List.mem_cons_of_mem t hy))
    rw [hsum, zero_add] at h1
    exact absurd h1 (not_le_of_lt (hpos t (List.mem_cons_self t ts)))

theorem create_taxable_event_set_nil (input : InputData)
    (hnt : ∀ t ∈ input.all_transactions, t.is_taxable = false) :
    create_taxable_event_set input = [] := by
  rw [create_taxable_event_set]
  generalize hl : input.all_transactions = l
  rw [hl] at hnt
  clear hl
  induction l with
  | nil => rfl
  | cons x xs ih =>
    rw [List.foldl_cons, if_neg (by simp [hnt x (List.mem_cons_self x xs)])]
    exact ih (fun y hy => hnt y (List.mem_cons_of_mem x hy))

theorem verify_trivial_input_passes (input : InputData)
    (hz : ∀ t ∈ input.all_transactions, t.crypto_taxable_amount = 0 ∧ t.usd_taxable_amount = 0)
    (hins : input.in_transaction_set = []) :
    verify_computation input 0 0 0 0 = none := by
  have hall : input.all_transactions =
      input.out_transaction_set ++ input.intra_transaction_set := by
    rw [InputData.all_transactions, hins]
    rfl
  have hsold : crypto_sold_amount_total_verify input = 0 := by
    rw [crypto_sold_amount_total_verify]
    refine sum_of_all_zero _ ?_
    intro x hx
    obtain ⟨y, hy, rfl⟩ := List.mem_map.1 hx
    exact (hz y (by rw [hall]; exact hy)).1
  have hearned : crypto_earned_amount_total_verify input = 0 := by
    rw [crypto_earned_amount_total_verify, hins]
    rfl
  have hcrypto : crypto_taxable_amount_total_verify input = 0 := by
    rw [crypto_taxable_amount_total_verify, hsold, hearned, add_zero]
  have husd : usd_taxable_amount_total_verify input = 0 := by
    rw [usd_taxable_amount_total_verify]
    refine sum_of_all_zero _ ?_
    intro x hx
    obtain ⟨y, hy, rfl⟩ := List.mem_map.1 hx
    exact (hz y hy).2
  have hcb : cost_basis_total_verify input = 0 := by
    rw [cost_basis_total_verify, hins]
    rfl
  have hgl : gain_loss_total_verify input = 0 := by
    rw [gain_loss_total_verify, husd, hcb, sub_zero]
  rw [verify_computation, hcrypto, husd, hcb, hgl]
  simp

/-- C10: `compute_tax` divides `usd_in_with_fee_running_sum` by
`crypto_in_running_sum` with no guard, so on an input whose in-transaction
set is empty — equivalently, by positivity of lot quantities, whose total
`crypto_in` is zero — and which has no taxable events (with the non-taxable
transactions carrying zero taxable amounts, so every earlier stage
succeeds), the whole computation fails with the division-by-zero error at
the price-per-unit step; and the division step itself succeeds exactly when
the total acquired quantity is non-zero. -/
theorem compute_tax_price_per_unit_division_by_zero (cfg : Configuration) (input : InputData)
    (hnt : ∀ t ∈ input.all_transactions, t.is_taxable = false)
    (hz : ∀ t ∈ input.all_transactions, t.crypto_taxable_amount = 0 ∧ t.usd_taxable_amount = 0)
    (hpos : ∀ l ∈ input.in_transaction_set, 0 < l.crypto_in)
    (hor : input.in_transaction_set = []
        ∨ sum_of (input.in_transaction_set.map (fun t => t.crypto_in)) = 0) :
    compute_tax cfg input = Except.error PyErr.decimalDivisionByZero
    ∧ ∀ u c : Rat, c ≠ 0 → decimal_div u c = Except.ok (u / c) := by
  have hins : input.in_transaction_set = [] := by
    rcases hor with h | h
    · exact h
    · exact lots_empty_of_sum_zero _ hpos h
  constructor
  · have hte := create_taxable_event_set_nil input hnt
    have hgl : create_gain_and_loss_set input [] = Except.ok [] := rfl
    have hy : create_yearly_gain_loss_list input [] = Except.ok [] := by
      rw [create_yearly_gain_loss_list]
      show (match verify_computation input 0 0 0 0 with
            | some e => Except.error e
            | none => Except.ok (List.insertionSort ygl_desc [])) = Except.ok []
      rw [verify_trivial_input_passes input hz hins]
      rfl
    simp only [compute_tax, hte, hins]
    rw [hgl]
    simp only [hy, List.map_nil]
    norm_num [sum_of, decimal_div]
  · intro u c hc
    rw [decimal_div, if_neg hc]

def c10_config : Configuration := ⟨"config.json", AccountingMethod.fifo⟩

def c10_input : InputData := ⟨"C10", [], [], []⟩

/-- Witness for C10: the hypotheses hold for an input with no transactions
at all, and `compute_tax` fails there with the division-by-zero error while
the division helper succeeds on any non-zero divisor. -/
theorem compute_tax_price_per_unit_division_by_zero_witness :
    (∀ t ∈ c10_input.all_transactions, t.is_taxable = false)
    ∧ (∀ t ∈ c10_input.all_transactions,
        t.crypto_taxable_amount = 0 ∧ t.usd_taxable_amount = 0)
    ∧ (∀ l ∈ c10_input.in_transaction_set, 0 < l.crypto_in)
    ∧ (compute_tax c10_config c10_input = Except.error PyErr.decimalDivisionByZero
        ∧ ∀ u c : Rat, c ≠ 0 → decimal_div u c = Except.ok (u / c)) := by
  have h1 : ∀ t ∈ c10_input.all_transactions, t.is_taxable = false := by
    intro t ht
    simp [c10_input, InputData.all_transactions] at ht
  have h2 : ∀ t ∈ c10_input.all_transactions,
      t.crypto_taxable_amount = 0 ∧ t.usd_taxable_amount = 0 := by
    intro t ht
    simp [c10_input, InputData.all_transactions] at ht
  have h3 : ∀ l ∈ c10_input.in_transaction_set, 0 < l.crypto_in := by
    intro l hl
    simp [c10_input] at hl
  exact ⟨h1, h2, h3,
    compute_tax_price_per_unit_division_by_zero c10_config c10_input h1 h2 h3 (Or.inl rfl)⟩

def c5_buy : InTransaction := ⟨⟨⟨1, 2020⟩, "C5", TransactionType.buy, 0, 0, false⟩, 2, 20⟩

def c5_sell : AbstractTransaction := ⟨⟨2, 2020⟩, "C5", TransactionType.sell, 1, 15, true⟩

def c5_input : InputData := ⟨"C5", [c5_buy], [c5_sell], []⟩

/-- Witness for C5: the theorem instantiated at a concrete input with one
non-taxable acquisition and one taxable disposal. -/
theorem taxable_event_set_exact_and_sorted_witness :
    (create_taxable_event_set c5_input).Perm
        (c5_input.all_transactions.filter (fun t => t.is_taxable))
    ∧ List.Pairwise chrono_le (create_taxable_event_set c5_input) :=
  taxable_event_set_exact_and_sorted c5_input

def c6_record : GainLoss := ⟨1, ⟨⟨2, 2020⟩, "C6", TransactionType.sell, 1, 15, true⟩, none⟩

def c6_key : YearlyGainLossId := gain_loss_key c6_record

/-- Witness for C6: the theorem instantiated at a one-record list and that
record's key. -/
theorem yearly_aggregation_exact_witness :
    alistGet c6_key (create_summaries [c6_record]) =
      (if [c6_record].filter (fun g => decide (gain_loss_key g = c6_key)) = [] then none
       else some (([c6_record].filter (fun g => decide (gain_loss_key g = c6_key))).foldl
         (fun a g => a.add (gain_loss_amounts g)) zeroAmounts))
    ∧ ((create_summaries [c6_record]).map Prod.fst).Nodup :=
  yearly_aggregation_exact [c6_record] c6_key

def c8_input : InputData := ⟨"C8", [], [], []⟩

/-- Witness for C8: the theorem instantiated at an empty input and totals
(1, 0, 0, 0), where the crypto total mismatches. -/
theorem verify_computation_raises_iff_mismatch_witness :
    ((verify_computation c8_input 1 0 0 0).isSome ↔
      ¬((1 : Rat) = crypto_taxable_amount_total_verify c8_input
        ∧ (0 : Rat) = usd_taxable_amount_total_verify c8_input
        ∧ (0 : Rat) = cost_basis_total_verify c8_input
        ∧ (0 : Rat) = gain_loss_total_verify c8_input))
    ∧ (verify_computation c8_input 1 0 0 0 = none
        ∨ ∃ s, verify_computation c8_input 1 0 0 0 = some (PyErr.exception s)
            ∧ (PyErr.exception s).is_user_facing_rp2_error = false) :=
  verify_computation_raises_iff_mismatch c8_input 1 0 0 0
